import Mathlib

/-!
Verification of the avatarad avatar-resolution core against its design
specification.  The definitions below are a shallow embedding of the Go
source (src/avatarad/avatarad.go and src/avatarad/ldap.go): the in-memory
avatar cache is an association list from fingerprint strings to cache
entries, timestamps are integers, byte sequences are lists of naturals,
and the effectful collaborators (LDAP fetch, Gravatar HTTP GET, image
encoders) are passed in as explicit outcome values or functions.
-/

namespace Avatarad

/-- Cache entry, mirroring the Go struct avatar {Image []byte; LastUpdate time.Time}. -/
structure Avatar where
  image : List Nat
  lastUpdate : Int
  deriving DecidableEq, Repr

/-- Zero value of the avatar struct, what a Go map read returns for an absent key. -/
def Avatar.zero : Avatar := ⟨[], 0⟩

/-- The global hash map hs, modelled as an association list with unique keys. -/
abbrev Cache := List (String × Avatar)

/-- Keys of the cache, used to state the unique-keys invariant of a Go map. -/
def keys (c : Cache) : List String := c.map Prod.fst

/-- Map read hs[h] through hsGet: the entry when the key is present, the zero value otherwise. -/
def hsGet : Cache → String → Avatar
  | [], _ => Avatar.zero
  | p :: t, h => if p.1 = h then p.2 else hsGet t h

/-- Map deletion delete(hs, h) through hsDelete. -/
def hsDelete : Cache → String → Cache
  | [], _ => []
  | p :: t, h => if p.1 = h then hsDelete t h else p :: hsDelete t h

/-- Map assignment hs[h] = av through hsWrite: replaces any entry under the key. -/
def hsWrite (c : Cache) (h : String) (av : Avatar) : Cache :=
  (h, av) :: hsDelete c h

/-- Condition under which pruneHash evicts an entry:
len(av.Image) > 0 && time.Since(av.LastUpdate) > maxTime. -/
abbrev staleEntry (mt now : Int) (av : Avatar) : Prop :=
  0 < av.image.length ∧ mt < now - av.lastUpdate

/-- Condition under which fillHash keeps an existing entry:
len(avtr.Image) > 0 && time.Since(avtr.LastUpdate) <= maxTime. -/
abbrev freshNonEmpty (mt now : Int) (av : Avatar) : Prop :=
  0 < av.image.length ∧ now - av.lastUpdate ≤ mt

/-- The sweep: pruneHash iterates the whole map and deletes every entry that is
non-empty and older than the freshness window. -/
def pruneHash (mt now : Int) : Cache → Cache
  | [] => []
  | p :: t =>
      if staleEntry mt now p.2 then pruneHash mt now t
      else p :: pruneHash mt now t

/-- One LDAP search result entry, carrying the email attribute value and the
raw avatar attribute value. -/
structure LdapEntry where
  mail : String
  av : List Nat
  deriving DecidableEq, Repr

/-- Body of the fillHash loop for one LDAP entry.  Skips the entry when either
attribute is empty; skips the whole record (both writes) when the md5 entry is
fresh and non-empty; otherwise writes under the md5 fingerprint and then under
the sha256 fingerprint unless that entry is fresh and non-empty. -/
def fillHashEntry (md5h shah : String → String) (mt now : Int)
    (e : LdapEntry) (c : Cache) : Cache :=
  if e.mail = "" then c
  else if e.av = [] then c
  else if freshNonEmpty mt now (hsGet c (md5h e.mail)) then c
  else if freshNonEmpty mt now
      (hsGet (hsWrite c (md5h e.mail) ⟨e.av, now⟩) (shah e.mail)) then
    hsWrite c (md5h e.mail) ⟨e.av, now⟩
  else hsWrite (hsWrite c (md5h e.mail) ⟨e.av, now⟩) (shah e.mail) ⟨e.av, now⟩

/-- The fillHash loop over all entries returned by the directory search. -/
def fillHash (md5h shah : String → String) (mt now : Int) :
    List LdapEntry → Cache → Cache
  | [], c => c
  | e :: es, c => fillHash md5h shah mt now es (fillHashEntry md5h shah mt now e c)

theorem hsGet_hsDelete_ne (c : Cache) (h h' : String) (hne : h' ≠ h) :
    hsGet (hsDelete c h) h' = hsGet c h' := by
  induction c with
  | nil => rfl
  | cons p t ih =>
      by_cases hk : p.1 = h
      · simp only [hsDelete, if_pos hk, hsGet, ih]
        rw [if_neg (by rw [hk]; exact fun e => hne e.symm)]
      · simp only [hsDelete, if_neg hk, hsGet, ih]

theorem hsGet_hsWrite_self (c : Cache) (h : String) (av : Avatar) :
    hsGet (hsWrite c h av) h = av := by
  simp [hsWrite, hsGet]

theorem hsGet_hsWrite_ne (c : Cache) (h h' : String) (av : Avatar) (hne : h' ≠ h) :
    hsGet (hsWrite c h av) h' = hsGet c h' := by
  simp only [hsWrite, hsGet]
  rw [if_neg (fun e => hne e.symm)]
  exact hsGet_hsDelete_ne c h h' hne

theorem hsGet_eq_zero_of_not_mem_keys (c : Cache) (h : String) (hn : h ∉ keys c) :
    hsGet c h = Avatar.zero := by
  induction c with
  | nil => rfl
  | cons p t ih =>
      simp only [keys, List.map_cons, List.mem_cons] at hn
      push_neg at hn
      rw [hsGet, if_neg (fun e => hn.1 e.symm)]
      exact ih hn.2

theorem mem_keys_pruneHash (mt now : Int) (c : Cache) (h : String)
    (hm : h ∈ keys (pruneHash mt now c)) : h ∈ keys c := by
  induction c with
  | nil => exact hm
  | cons p t ih =>
      by_cases hc : staleEntry mt now p.2
      · simp only [pruneHash, if_pos hc] at hm
        simp only [keys, List.map_cons, List.mem_cons]
        exact Or.inr (ih hm)
      · simp only [pruneHash, if_neg hc, keys, List.map_cons, List.mem_cons] at hm
        simp only [keys, List.map_cons, List.mem_cons]
        exact hm.imp id ih

theorem hsGet_pruneHash (mt now : Int) (c : Cache) (h : String)
    (hwf : (keys c).Nodup) :
    hsGet (pruneHash mt now c) h =
      if staleEntry mt now (hsGet c h) then Avatar.zero else hsGet c h := by
  induction c with
  | nil =>
      simp [pruneHash, hsGet, Avatar.zero]
  | cons p t ih =>
      simp only [keys, List.map_cons, List.nodup_cons] at hwf
      by_cases hk : p.1 = h
      · subst hk
        have hget : hsGet (p :: t) p.1 = p.2 := by simp [hsGet]
        rw [hget]
        by_cases hc : staleEntry mt now p.2
        · rw [pruneHash, if_pos hc, if_pos hc]
          exact hsGet_eq_zero_of_not_mem_keys _ _
            (fun hmem => hwf.1 (mem_keys_pruneHash mt now t p.1 hmem))
        · rw [pruneHash, if_neg hc, if_neg hc]
          simp [hsGet]
      · have hget : hsGet (p :: t) h = hsGet t h := by simp [hsGet, hk]
        rw [hget]
        by_cases hc : staleEntry mt now p.2
        · rw [pruneHash, if_pos hc, ih hwf.2]
        · rw [pruneHash, if_neg hc]
          have hskip : hsGet (p :: pruneHash mt now t) h = hsGet (pruneHash mt now t) h := by
            simp [hsGet, hk]
          rw [hskip, ih hwf.2]

theorem mem_pruneHash_iff (mt now : Int) (c : Cache) (p : String × Avatar) :
    p ∈ pruneHash mt now c ↔ p ∈ c ∧ ¬ staleEntry mt now p.2 := by
  induction c with
  | nil => simp [pruneHash]
  | cons q t ih =>
      by_cases hc : staleEntry mt now q.2
      · rw [pruneHash, if_pos hc]
        constructor
        · intro hmem
          rcases ih.mp hmem with ⟨hmt, hns⟩
          exact ⟨List.mem_cons_of_mem q hmt, hns⟩
        · rintro ⟨hmem, hns⟩
          rcases List.mem_cons.mp hmem with hq | hmt
          · exact absurd (hq ▸ hc) hns
          · exact ih.mpr ⟨hmt, hns⟩
      · rw [pruneHash, if_neg hc]
        constructor
        · intro hmem
          rcases List.mem_cons.mp hmem with hq | hmt
          · exact ⟨hq ▸ List.mem_cons_self q t, hq ▸ hc⟩
          · rcases ih.mp hmt with ⟨hmt2, hns⟩
            exact ⟨List.mem_cons_of_mem q hmt2, hns⟩
        · rintro ⟨hmem, hns⟩
          rcases List.mem_cons.mp hmem with hq | hmt
          · exact hq ▸ List.mem_cons_self q _
          · exact List.mem_cons_of_mem q (ih.mpr ⟨hmt, hns⟩)

/-- Outcome of the Gravatar HTTP GET as seen by getAvatar: the response status
and the result of reading the body in full (io.ReadAll plus Body.Close, an
error from either is a failed read). -/
structure HttpResp where
  status : Nat
  body : Except Unit (List Nat)

/-- Observable outcome of one getAvatar call: the returned entry (or a
propagated panic), the cache state after the call, whether a directory fetch
was attempted, and the list of Gravatar request URLs issued. -/
structure ResolveOut where
  result : Except Unit Avatar
  cache : Cache
  didFetch : Bool
  remoteRequests : List String

/-- Tail of getAvatar that writes the given bytes under the fingerprint with
the current time and returns the freshly read entry. -/
def serveWrite (now : Int) (b : List Nat) (c : Cache) (h : String)
    (reqs : List String) : ResolveOut :=
  ⟨Except.ok (hsGet (hsWrite c h ⟨b, now⟩) h), hsWrite c h ⟨b, now⟩, true, reqs⟩

/-- The Gravatar branch of getAvatar: one GET to base/fingerprint?s=490&d=404;
on a 200 response whose body reads fully, the body is cached and served; on a
connection error, a non-200 status, or a failed body read, the static default
is cached and served instead. -/
def tryGravatar (now : Int) (gURL : String) (remote : Except Unit HttpResp)
    (dflt : List Nat) (c : Cache) (h : String) : ResolveOut :=
  match remote with
  | Except.ok resp =>
      if resp.status = 200 then
        match resp.body with
        | Except.ok b => serveWrite now b c h [gURL ++ "/" ++ h ++ "?s=490&d=404"]
        | Except.error _ => serveWrite now dflt c h [gURL ++ "/" ++ h ++ "?s=490&d=404"]
      else serveWrite now dflt c h [gURL ++ "/" ++ h ++ "?s=490&d=404"]
  | Except.error _ => serveWrite now dflt c h [gURL ++ "/" ++ h ++ "?s=490&d=404"]

/-- The resolution pipeline getAvatar.  On a fresh non-empty cache entry it is
served directly.  Otherwise the sweep runs, then the directory fetch: a fetch
failure propagates as a panic (the Go code calls panicIf inside getEntries);
on success the entries are folded by fillHash, the cache is re-read, and a
still-empty entry falls back to Gravatar (when enabled) and then to the
embedded default image. -/
def getAvatar (mt now : Int) (md5h shah : String → String)
    (fetch : Except Unit (List LdapEntry)) (gEnabled : Bool) (gURL : String)
    (remote : Except Unit HttpResp) (dflt : List Nat)
    (c : Cache) (h : String) : ResolveOut :=
  if (hsGet c h).image.length = 0 ∨ mt < now - (hsGet c h).lastUpdate then
    match fetch with
    | Except.error _ => ⟨Except.error (), pruneHash mt now c, true, []⟩
    | Except.ok entries =>
        if 0 < (hsGet (fillHash md5h shah mt now entries (pruneHash mt now c)) h).image.length then
          ⟨Except.ok (hsGet (fillHash md5h shah mt now entries (pruneHash mt now c)) h),
            fillHash md5h shah mt now entries (pruneHash mt now c), true, []⟩
        else if gEnabled then
          tryGravatar now gURL remote dflt
            (fillHash md5h shah mt now entries (pruneHash mt now c)) h
        else
          serveWrite now dflt (fillHash md5h shah mt now entries (pruneHash mt now c)) h []
  else ⟨Except.ok (hsGet c h), c, false, []⟩

/-- The encode step encodeAvatar.  The two encoders are passed in as functions
returning the bytes written to the buffer and an optional error; for a format
other than jpeg and png the Go switch has no branch, so the fresh buffer stays
empty and the declared err variable stays nil. -/
def encodeAvatar {Img : Type} (jpegEnc pngEnc : Img → List Nat × Option Unit)
    (img : Img) (format : String) : List Nat × Option Unit :=
  if format = "jpeg" then jpegEnc img
  else if format = "png" then pngEnc img
  else ([], none)

/-- Accumulating decimal parse over a character list: any non-digit character
fails the whole parse. -/
def digitsToNat : List Char → Nat → Option Nat
  | [], acc => some acc
  | ch :: t, acc =>
      if ch.isDigit then digitsToNat t (acc * 10 + (ch.toNat - 48)) else none

/-- Model of strconv.ParseUint(s, 10, 64): decimal digits only, no sign, a
non-empty input, and the value must fit in 64 bits. -/
def parseUint64 (s : String) : Option Nat :=
  if s = "" then none
  else match digitsToNat s.data 0 with
    | some n => if n < 2 ^ 64 then some n else none
    | none => none

/-- First value of a query key, modelling url.Values lookup q[k] followed by
taking element 0; the query is the ordered list of key/value pairs. -/
def queryFirst (q : List (String × String)) (k : String) : Option String :=
  match q with
  | [] => none
  | p :: t => if p.1 = k then some p.2 else queryFirst t k

/-- Size parsing of avatarHandler: the first value of the s parameter, else
the first value of the size parameter, else the empty string, parsed as an
unsigned decimal; a parse failure leaves the default size 80. -/
def avatarSize (q : List (String × String)) : Nat :=
  match parseUint64 (match queryFirst q ("s") with
    | some v => v
    | none => match queryFirst q ("size") with
      | some v => v
      | none => "") with
  | some n => n
  | none => 80

theorem hsGet_fillHashEntry_ne (md5h shah : String → String) (mt now : Int)
    (e : LdapEntry) (c : Cache) (h : String)
    (hm : md5h e.mail ≠ h) (hv : shah e.mail ≠ h) :
    hsGet (fillHashEntry md5h shah mt now e c) h = hsGet c h := by
  unfold fillHashEntry
  by_cases h1 : e.mail = ""
  · rw [if_pos h1]
  rw [if_neg h1]
  by_cases h2 : e.av = []
  · rw [if_pos h2]
  rw [if_neg h2]
  by_cases h3 : freshNonEmpty mt now (hsGet c (md5h e.mail))
  · rw [if_pos h3]
  rw [if_neg h3]
  by_cases h4 : freshNonEmpty mt now
      (hsGet (hsWrite c (md5h e.mail) ⟨e.av, now⟩) (shah e.mail))
  · rw [if_pos h4]
    exact hsGet_hsWrite_ne c (md5h e.mail) h ⟨e.av, now⟩ (fun hx => hm hx.symm)
  · rw [if_neg h4,
      hsGet_hsWrite_ne _ (shah e.mail) h ⟨e.av, now⟩ (fun hx => hv hx.symm),
      hsGet_hsWrite_ne c (md5h e.mail) h ⟨e.av, now⟩ (fun hx => hm hx.symm)]

theorem hsGet_fillHash_ne (md5h shah : String → String) (mt now : Int)
    (entries : List LdapEntry) (c : Cache) (h : String)
    (habs : ∀ e ∈ entries, md5h e.mail ≠ h ∧ shah e.mail ≠ h) :
    hsGet (fillHash md5h shah mt now entries c) h = hsGet c h := by
  induction entries generalizing c with
  | nil => rfl
  | cons e es ih =>
      have he := habs e (List.mem_cons_self e es)
      rw [fillHash, ih _ (fun x hx => habs x (List.mem_cons_of_mem e hx)),
        hsGet_fillHashEntry_ne md5h shah mt now e c h he.1 he.2]

theorem hsGet_pruneHash_empty (mt now : Int) (c : Cache) (h : String)
    (hwf : (keys c).Nodup)
    (hmiss : (hsGet c h).image.length = 0 ∨ mt < now - (hsGet c h).lastUpdate) :
    (hsGet (pruneHash mt now c) h).image.length = 0 := by
  rw [hsGet_pruneHash mt now c h hwf]
  by_cases hc : staleEntry mt now (hsGet c h)
  · rw [if_pos hc]; rfl
  · rw [if_neg hc]
    rcases hmiss with hz | hst
    · exact hz
    · by_cases hl : 0 < (hsGet c h).image.length
      · exact absurd ⟨hl, hst⟩ hc
      · omega

theorem serveWrite_eq (now : Int) (b : List Nat) (c : Cache) (h : String)
    (reqs : List String) :
    serveWrite now b c h reqs
      = ⟨Except.ok ⟨b, now⟩, hsWrite c h ⟨b, now⟩, true, reqs⟩ := by
  unfold serveWrite
  rw [hsGet_hsWrite_self]

theorem tryGravatar_status (now : Int) (gURL : String) (s : Nat)
    (bd : Except Unit (List Nat)) (dflt : List Nat) (c : Cache) (h : String) :
    tryGravatar now gURL (Except.ok ⟨s, bd⟩) dflt c h
      = (if s = 200 then
          match bd with
          | Except.ok b => serveWrite now b c h [gURL ++ "/" ++ h ++ "?s=490&d=404"]
          | Except.error _ => serveWrite now dflt c h [gURL ++ "/" ++ h ++ "?s=490&d=404"]
        else serveWrite now dflt c h [gURL ++ "/" ++ h ++ "?s=490&d=404"]) := rfl

theorem tryGravatar_requests (now : Int) (gURL : String)
    (remote : Except Unit HttpResp) (dflt : List Nat) (c : Cache) (h : String) :
    (tryGravatar now gURL remote dflt c h).remoteRequests
      = [gURL ++ "/" ++ h ++ "?s=490&d=404"] := by
  cases remote with
  | error e => rfl
  | ok resp =>
      rcases resp with ⟨s, bd⟩
      rw [tryGravatar_status]
      by_cases hs : s = 200
      · rw [if_pos hs]
        cases bd with
        | ok b => rfl
        | error e => rfl
      · rw [if_neg hs]
        rfl

theorem tryGravatar_ok (now : Int) (gURL : String) (b dflt : List Nat)
    (c : Cache) (h : String) :
    tryGravatar now gURL (Except.ok ⟨200, Except.ok b⟩) dflt c h
      = serveWrite now b c h [gURL ++ "/" ++ h ++ "?s=490&d=404"] := rfl

theorem tryGravatar_fail (now : Int) (gURL : String)
    (remote : Except Unit HttpResp) (dflt : List Nat) (c : Cache) (h : String)
    (hfail : ∀ b, remote ≠ Except.ok ⟨200, Except.ok b⟩) :
    tryGravatar now gURL remote dflt c h
      = serveWrite now dflt c h [gURL ++ "/" ++ h ++ "?s=490&d=404"] := by
  cases remote with
  | error e => rfl
  | ok resp =>
      rcases resp with ⟨s, bd⟩
      by_cases hs : s = 200
      · subst hs
        cases bd with
        | ok b => exact absurd rfl (hfail b)
        | error e => rfl
      · rw [tryGravatar_status, if_neg hs]

theorem getAvatar_miss_ok (mt now : Int) (md5h shah : String → String)
    (entries : List LdapEntry) (gEnabled : Bool) (gURL : String)
    (remote : Except Unit HttpResp) (dflt : List Nat) (c : Cache) (h : String)
    (hmiss : (hsGet c h).image.length = 0 ∨ mt < now - (hsGet c h).lastUpdate) :
    getAvatar mt now md5h shah (Except.ok entries) gEnabled gURL remote dflt c h
      = (if 0 < (hsGet (fillHash md5h shah mt now entries (pruneHash mt now c)) h).image.length then
          ⟨Except.ok (hsGet (fillHash md5h shah mt now entries (pruneHash mt now c)) h),
            fillHash md5h shah mt now entries (pruneHash mt now c), true, []⟩
        else if gEnabled then
          tryGravatar now gURL remote dflt
            (fillHash md5h shah mt now entries (pruneHash mt now c)) h
        else
          serveWrite now dflt (fillHash md5h shah mt now entries (pruneHash mt now c)) h []) := by
  unfold getAvatar
  rw [if_pos hmiss]

theorem getAvatar_miss_error (mt now : Int) (md5h shah : String → String)
    (gEnabled : Bool) (gURL : String) (remote : Except Unit HttpResp)
    (dflt : List Nat) (c : Cache) (h : String)
    (hmiss : (hsGet c h).image.length = 0 ∨ mt < now - (hsGet c h).lastUpdate) :
    getAvatar mt now md5h shah (Except.error ()) gEnabled gURL remote dflt c h
      = ⟨Except.error (), pruneHash mt now c, true, []⟩ := by
  unfold getAvatar
  rw [if_pos hmiss]

/-- Claim C7: the sweep pruneHash deletes exactly those cache entries that are
non-empty and older than the freshness window; a read of any deleted key
afterwards yields the zero value, every other entry, including entries with
empty bytes of any age, is left unchanged, and an entry survives the sweep
precisely when it is not both non-empty and stale. -/
theorem sweep_deletes_exactly_stale (mt now : Int) (c : Cache) (h : String)
    (hwf : (keys c).Nodup) :
    hsGet (pruneHash mt now c) h
        = (if staleEntry mt now (hsGet c h) then Avatar.zero else hsGet c h)
  ∧ ∀ p : String × Avatar,
      p ∈ pruneHash mt now c ↔ p ∈ c ∧ ¬ staleEntry mt now p.2 :=
  ⟨hsGet_pruneHash mt now c h hwf, mem_pruneHash_iff mt now c⟩

/-- Witness for C7 on a concrete cache holding a stale non-empty entry, a
fresh entry and an old empty entry. -/
theorem sweep_deletes_exactly_stale_witness :
    (keys [(("a"), (⟨[1], 0⟩ : Avatar)), (("b"), ⟨[2], 9000⟩), (("c0"), ⟨[], 0⟩)]).Nodup
  ∧ (hsGet (pruneHash 1800 10000
        [(("a"), ⟨[1], 0⟩), (("b"), ⟨[2], 9000⟩), (("c0"), ⟨[], 0⟩)]) ("a")
        = (if staleEntry 1800 10000 (hsGet
            [(("a"), ⟨[1], 0⟩), (("b"), ⟨[2], 9000⟩), (("c0"), ⟨[], 0⟩)] ("a"))
          then Avatar.zero
          else hsGet [(("a"), ⟨[1], 0⟩), (("b"), ⟨[2], 9000⟩), (("c0"), ⟨[], 0⟩)] ("a"))
    ∧ ∀ p : String × Avatar,
        p ∈ pruneHash 1800 10000
            [(("a"), ⟨[1], 0⟩), (("b"), ⟨[2], 9000⟩), (("c0"), ⟨[], 0⟩)]
          ↔ p ∈ [(("a"), (⟨[1], 0⟩ : Avatar)), (("b"), ⟨[2], 9000⟩), (("c0"), ⟨[], 0⟩)]
            ∧ ¬ staleEntry 1800 10000 p.2) :=
  ⟨by decide,
    sweep_deletes_exactly_stale 1800 10000
      [(("a"), ⟨[1], 0⟩), (("b"), ⟨[2], 9000⟩), (("c0"), ⟨[], 0⟩)] ("a") (by decide)⟩

/-- Claim C8: the sweep is idempotent: with a fixed clock and no intervening
writes, running pruneHash twice yields the same cache state as running it
once. -/
theorem sweep_idempotent (mt now : Int) (c : Cache) :
    pruneHash mt now (pruneHash mt now c) = pruneHash mt now c := by
  induction c with
  | nil => rfl
  | cons p t ih =>
      by_cases hc : staleEntry mt now p.2
      · rw [pruneHash, if_pos hc, ih]
      · rw [pruneHash, if_neg hc, pruneHash, if_neg hc, ih]

/-- Claim C3: on a fresh non-empty cache entry, getAvatar returns exactly that
entry, performs no directory fetch and no Gravatar request, and leaves the
cache unchanged. -/
theorem cacheHit_serves_entry (mt now : Int) (md5h shah : String → String)
    (fetch : Except Unit (List LdapEntry)) (gEnabled : Bool) (gURL : String)
    (remote : Except Unit HttpResp) (dflt : List Nat) (c : Cache) (h : String)
    (hne : 0 < (hsGet c h).image.length)
    (hfresh : now - (hsGet c h).lastUpdate ≤ mt) :
    (getAvatar mt now md5h shah fetch gEnabled gURL remote dflt c h).result
        = Except.ok (hsGet c h)
  ∧ (getAvatar mt now md5h shah fetch gEnabled gURL remote dflt c h).cache = c
  ∧ (getAvatar mt now md5h shah fetch gEnabled gURL remote dflt c h).didFetch = false
  ∧ (getAvatar mt now md5h shah fetch gEnabled gURL remote dflt c h).remoteRequests = [] := by
  have hcond : ¬((hsGet c h).image.length = 0 ∨ mt < now - (hsGet c h).lastUpdate) := by
    push_neg
    exact ⟨by omega, by omega⟩
  have hg : getAvatar mt now md5h shah fetch gEnabled gURL remote dflt c h
      = ⟨Except.ok (hsGet c h), c, false, []⟩ := by
    unfold getAvatar
    rw [if_neg hcond]
  rw [hg]
  exact ⟨rfl, rfl, rfl, rfl⟩

/-- Witness for C3 on a concrete one-entry fresh cache. -/
theorem cacheHit_serves_entry_witness :
    0 < (hsGet [(("f"), (⟨[1], 9000⟩ : Avatar))] ("f")).image.length
  ∧ 10000 - (hsGet [(("f"), (⟨[1], 9000⟩ : Avatar))] ("f")).lastUpdate ≤ 1800
  ∧ ((getAvatar 1800 10000 (fun s => "md5" ++ s) (fun s => "sha" ++ s)
        (Except.ok []) false ("g") (Except.error ()) [0]
        [(("f"), ⟨[1], 9000⟩)] ("f")).result
        = Except.ok (hsGet [(("f"), ⟨[1], 9000⟩)] ("f"))
    ∧ (getAvatar 1800 10000 (fun s => "md5" ++ s) (fun s => "sha" ++ s)
        (Except.ok []) false ("g") (Except.error ()) [0]
        [(("f"), ⟨[1], 9000⟩)] ("f")).cache = [(("f"), ⟨[1], 9000⟩)]
    ∧ (getAvatar 1800 10000 (fun s => "md5" ++ s) (fun s => "sha" ++ s)
        (Except.ok []) false ("g") (Except.error ()) [0]
        [(("f"), ⟨[1], 9000⟩)] ("f")).didFetch = false
    ∧ (getAvatar 1800 10000 (fun s => "md5" ++ s) (fun s => "sha" ++ s)
        (Except.ok []) false ("g") (Except.error ()) [0]
        [(("f"), ⟨[1], 9000⟩)] ("f")).remoteRequests = []) :=
  ⟨by decide, by decide,
    cacheHit_serves_entry 1800 10000 (fun s => "md5" ++ s) (fun s => "sha" ++ s)
      (Except.ok []) false ("g") (Except.error ()) [0]
      [(("f"), ⟨[1], 9000⟩)] ("f") (by decide) (by decide)⟩

/-- Claim C5: for a fingerprint that misses the cache, is absent from the
directory under both fingerprint algorithms, and with Gravatar disabled,
getAvatar returns exactly the embedded default image and afterwards the cache
holds that default under the fingerprint with lastRefresh equal to now. -/
theorem default_fallback_serves_default (mt now : Int) (md5h shah : String → String)
    (entries : List LdapEntry) (gURL : String) (remote : Except Unit HttpResp)
    (dflt : List Nat) (c : Cache) (h : String)
    (hwf : (keys c).Nodup)
    (hmiss : (hsGet c h).image.length = 0 ∨ mt < now - (hsGet c h).lastUpdate)
    (habs : ∀ e ∈ entries, md5h e.mail ≠ h ∧ shah e.mail ≠ h) :
    (getAvatar mt now md5h shah (Except.ok entries) false gURL remote dflt c h).result
        = Except.ok ⟨dflt, now⟩
  ∧ hsGet (getAvatar mt now md5h shah (Except.ok entries) false gURL remote dflt c h).cache h
        = ⟨dflt, now⟩ := by
  have hempty : (hsGet (fillHash md5h shah mt now entries (pruneHash mt now c)) h).image.length = 0 := by
    rw [hsGet_fillHash_ne md5h shah mt now entries _ h habs]
    exact hsGet_pruneHash_empty mt now c h hwf hmiss
  have h0 : ¬ 0 < (hsGet (fillHash md5h shah mt now entries (pruneHash mt now c)) h).image.length := by
    omega
  have hg := getAvatar_miss_ok mt now md5h shah entries false gURL remote dflt c h hmiss
  rw [if_neg h0, if_neg Bool.false_ne_true, serveWrite_eq] at hg
  rw [hg]
  exact ⟨rfl, hsGet_hsWrite_self _ _ _⟩

/-- Witness for C5 on an empty cache and a directory without the requested
fingerprint. -/
theorem default_fallback_serves_default_witness :
    (keys ([] : Cache)).Nodup
  ∧ ((hsGet ([] : Cache) ("zz")).image.length = 0
      ∨ (1800 : Int) < 10000 - (hsGet ([] : Cache) ("zz")).lastUpdate)
  ∧ (∀ e ∈ [(⟨"m", [7]⟩ : LdapEntry)],
      (fun s => "md5" ++ s) e.mail ≠ "zz" ∧ (fun s => "sha" ++ s) e.mail ≠ "zz")
  ∧ ((getAvatar 1800 10000 (fun s => "md5" ++ s) (fun s => "sha" ++ s)
        (Except.ok [⟨"m", [7]⟩]) false ("g") (Except.error ()) [0] [] ("zz")).result
        = Except.ok ⟨[0], 10000⟩
    ∧ hsGet (getAvatar 1800 10000 (fun s => "md5" ++ s) (fun s => "sha" ++ s)
        (Except.ok [⟨"m", [7]⟩]) false ("g") (Except.error ()) [0] [] ("zz")).cache ("zz")
        = ⟨[0], 10000⟩) :=
  ⟨by decide, by decide, by decide,
    default_fallback_serves_default 1800 10000
      (fun s => "md5" ++ s) (fun s => "sha" ++ s) [⟨"m", [7]⟩] ("g")
      (Except.error ()) [0] [] ("zz") (by decide) (by decide) (by decide)⟩

/-- Claim C4: when the entry is still empty after the refresh pass and
Gravatar is enabled, getAvatar issues exactly one GET to
base/fingerprint?s=490&d=404; exactly when the response has status 200 and its
body reads fully without error, the body bytes are cached under the
fingerprint with lastRefresh equal to now and returned; on a connection error,
a non-200 status or a failed body read it does not retry and falls through to
the static default. -/
theorem remote_fallback_contract (mt now : Int) (md5h shah : String → String)
    (entries : List LdapEntry) (gURL : String) (remote : Except Unit HttpResp)
    (dflt : List Nat) (c : Cache) (h : String)
    (hmiss : (hsGet c h).image.length = 0 ∨ mt < now - (hsGet c h).lastUpdate)
    (hempty : (hsGet (fillHash md5h shah mt now entries (pruneHash mt now c)) h).image.length = 0) :
    (getAvatar mt now md5h shah (Except.ok entries) true gURL remote dflt c h).remoteRequests
        = [gURL ++ "/" ++ h ++ "?s=490&d=404"]
  ∧ (∀ b, remote = Except.ok ⟨200, Except.ok b⟩ →
      (getAvatar mt now md5h shah (Except.ok entries) true gURL remote dflt c h).result
          = Except.ok ⟨b, now⟩
    ∧ hsGet (getAvatar mt now md5h shah (Except.ok entries) true gURL remote dflt c h).cache h
          = ⟨b, now⟩)
  ∧ ((∀ b, remote ≠ Except.ok ⟨200, Except.ok b⟩) →
      (getAvatar mt now md5h shah (Except.ok entries) true gURL remote dflt c h).result
          = Except.ok ⟨dflt, now⟩
    ∧ hsGet (getAvatar mt now md5h shah (Except.ok entries) true gURL remote dflt c h).cache h
          = ⟨dflt, now⟩) := by
  have h0 : ¬ 0 < (hsGet (fillHash md5h shah mt now entries (pruneHash mt now c)) h).image.length := by
    omega
  have hg := getAvatar_miss_ok mt now md5h shah entries true gURL remote dflt c h hmiss
  rw [if_neg h0, if_pos rfl] at hg
  refine ⟨?_, ?_, ?_⟩
  · rw [hg]
    exact tryGravatar_requests now gURL remote dflt _ h
  · intro b hb
    subst hb
    rw [hg, tryGravatar_ok, serveWrite_eq]
    exact ⟨rfl, hsGet_hsWrite_self _ _ _⟩
  · intro hfail
    rw [hg, tryGravatar_fail now gURL remote dflt _ h hfail, serveWrite_eq]
    exact ⟨rfl, hsGet_hsWrite_self _ _ _⟩

/-- Witness for C4 on an empty cache, an empty directory and a Gravatar
response of status 200 with body bytes. -/
theorem remote_fallback_contract_witness :
    ((hsGet ([] : Cache) ("f")).image.length = 0
      ∨ (1800 : Int) < 10000 - (hsGet ([] : Cache) ("f")).lastUpdate)
  ∧ (hsGet (fillHash (fun s => "md5" ++ s) (fun s => "sha" ++ s) 1800 10000 []
        (pruneHash 1800 10000 [])) ("f")).image.length = 0
  ∧ ((getAvatar 1800 10000 (fun s => "md5" ++ s) (fun s => "sha" ++ s)
        (Except.ok []) true ("g") (Except.ok ⟨200, Except.ok [3]⟩) [0] [] ("f")).remoteRequests
        = ["g" ++ "/" ++ "f" ++ "?s=490&d=404"]
    ∧ (∀ b, (Except.ok ⟨200, Except.ok [3]⟩ : Except Unit HttpResp)
            = Except.ok ⟨200, Except.ok b⟩ →
        (getAvatar 1800 10000 (fun s => "md5" ++ s) (fun s => "sha" ++ s)
          (Except.ok []) true ("g") (Except.ok ⟨200, Except.ok [3]⟩) [0] [] ("f")).result
            = Except.ok ⟨b, 10000⟩
      ∧ hsGet (getAvatar 1800 10000 (fun s => "md5" ++ s) (fun s => "sha" ++ s)
          (Except.ok []) true ("g") (Except.ok ⟨200, Except.ok [3]⟩) [0] [] ("f")).cache ("f")
            = ⟨b, 10000⟩)
    ∧ ((∀ b, (Except.ok ⟨200, Except.ok [3]⟩ : Except Unit HttpResp)
            ≠ Except.ok ⟨200, Except.ok b⟩) →
        (getAvatar 1800 10000 (fun s => "md5" ++ s) (fun s => "sha" ++ s)
          (Except.ok []) true ("g") (Except.ok ⟨200, Except.ok [3]⟩) [0] [] ("f")).result
            = Except.ok ⟨[0], 10000⟩
      ∧ hsGet (getAvatar 1800 10000 (fun s => "md5" ++ s) (fun s => "sha" ++ s)
          (Except.ok []) true ("g") (Except.ok ⟨200, Except.ok [3]⟩) [0] [] ("f")).cache ("f")
            = ⟨[0], 10000⟩)) :=
  ⟨by decide, by decide,
    remote_fallback_contract 1800 10000 (fun s => "md5" ++ s) (fun s => "sha" ++ s)
      [] ("g") (Except.ok ⟨200, Except.ok [3]⟩) [0] [] ("f") (by decide) (by decide)⟩

/-- Claim C9: when Gravatar is enabled and answers status 200 with an empty
body that reads without error, getAvatar caches an entry with empty image
bytes and lastRefresh equal to now under the fingerprint and returns that
empty entry instead of falling through to the static default. -/
theorem remote_empty_body_cached (mt now : Int) (md5h shah : String → String)
    (entries : List LdapEntry) (gURL : String) (dflt : List Nat)
    (c : Cache) (h : String)
    (hmiss : (hsGet c h).image.length = 0 ∨ mt < now - (hsGet c h).lastUpdate)
    (hempty : (hsGet (fillHash md5h shah mt now entries (pruneHash mt now c)) h).image.length = 0)
    (hdflt : dflt ≠ []) :
    (getAvatar mt now md5h shah (Except.ok entries) true gURL
        (Except.ok ⟨200, Except.ok []⟩) dflt c h).result = Except.ok ⟨[], now⟩
  ∧ hsGet (getAvatar mt now md5h shah (Except.ok entries) true gURL
        (Except.ok ⟨200, Except.ok []⟩) dflt c h).cache h = ⟨[], now⟩
  ∧ (getAvatar mt now md5h shah (Except.ok entries) true gURL
        (Except.ok ⟨200, Except.ok []⟩) dflt c h).result ≠ Except.ok ⟨dflt, now⟩ := by
  have h0 : ¬ 0 < (hsGet (fillHash md5h shah mt now entries (pruneHash mt now c)) h).image.length := by
    omega
  have hg := getAvatar_miss_ok mt now md5h shah entries true gURL
    (Except.ok ⟨200, Except.ok []⟩) dflt c h hmiss
  rw [if_neg h0, if_pos rfl, tryGravatar_ok, serveWrite_eq] at hg
  rw [hg]
  refine ⟨rfl, hsGet_hsWrite_self _ _ _, ?_⟩
  intro hcontra
  rw [Except.ok.injEq, Avatar.mk.injEq] at hcontra
  exact hdflt hcontra.1.symm

/-- Witness for C9 on an empty cache, an empty directory and a Gravatar
response of status 200 with an empty body. -/
theorem remote_empty_body_cached_witness :
    ((hsGet ([] : Cache) ("f")).image.length = 0
      ∨ (1800 : Int) < 10000 - (hsGet ([] : Cache) ("f")).lastUpdate)
  ∧ (hsGet (fillHash (fun s => "md5" ++ s) (fun s => "sha" ++ s) 1800 10000 []
        (pruneHash 1800 10000 [])) ("f")).image.length = 0
  ∧ ([0] : List Nat) ≠ []
  ∧ ((getAvatar 1800 10000 (fun s => "md5" ++ s) (fun s => "sha" ++ s)
        (Except.ok []) true ("g") (Except.ok ⟨200, Except.ok []⟩) [0] [] ("f")).result
        = Except.ok ⟨[], 10000⟩
    ∧ hsGet (getAvatar 1800 10000 (fun s => "md5" ++ s) (fun s => "sha" ++ s)
        (Except.ok []) true ("g") (Except.ok ⟨200, Except.ok []⟩) [0] [] ("f")).cache ("f")
        = ⟨[], 10000⟩
    ∧ (getAvatar 1800 10000 (fun s => "md5" ++ s) (fun s => "sha" ++ s)
        (Except.ok []) true ("g") (Except.ok ⟨200, Except.ok []⟩) [0] [] ("f")).result
        ≠ Except.ok ⟨[0], 10000⟩) :=
  ⟨by decide, by decide, by decide,
    remote_empty_body_cached 1800 10000 (fun s => "md5" ++ s) (fun s => "sha" ++ s)
      [] ("g") [0] [] ("f") (by decide) (by decide) (by decide)⟩

/-- Counterexample to claim C1 as stated: with a stale non-empty cache entry
under the fingerprint and a failing directory fetch, getAvatar does not fall
back to serving the cached bytes: it propagates the fetch failure, and the
sweep that ran before the fetch has already evicted the stale entry, so a
subsequent read of the fingerprint yields the zero value. -/
theorem directoryFailure_not_served_counterexample :
    (getAvatar 1800 10000 (fun s => "md5" ++ s) (fun s => "sha" ++ s)
        (Except.error ()) false ("g") (Except.error ()) [5]
        [(("f"), ⟨[1], 0⟩)] ("f")).result = Except.error ()
  ∧ (getAvatar 1800 10000 (fun s => "md5" ++ s) (fun s => "sha" ++ s)
        (Except.error ()) false ("g") (Except.error ()) [5]
        [(("f"), ⟨[1], 0⟩)] ("f")).result ≠ Except.ok ⟨[1], 0⟩
  ∧ hsGet (getAvatar 1800 10000 (fun s => "md5" ++ s) (fun s => "sha" ++ s)
        (Except.error ()) false ("g") (Except.error ()) [5]
        [(("f"), ⟨[1], 0⟩)] ("f")).cache ("f") = Avatar.zero := by
  refine ⟨rfl, ?_, by decide⟩
  intro hcontra
  exact Except.noConfusion hcontra

/-- Claim C1 amended: when the directory fetch fails during a refresh pass,
the pass fails whole: no partial directory results are folded into the cache,
no Gravatar request is issued, and every entry that was not both non-empty and
stale is preserved unchanged; however the sweep has already evicted the stale
non-empty entries, and the call aborts by propagating the failure instead of
serving anything from the cache. -/
theorem directoryFailure_aborts_pass (mt now : Int) (md5h shah : String → String)
    (gEnabled : Bool) (gURL : String) (remote : Except Unit HttpResp)
    (dflt : List Nat) (c : Cache) (h : String)
    (hwf : (keys c).Nodup)
    (hmiss : (hsGet c h).image.length = 0 ∨ mt < now - (hsGet c h).lastUpdate) :
    (getAvatar mt now md5h shah (Except.error ()) gEnabled gURL remote dflt c h).result
        = Except.error ()
  ∧ (getAvatar mt now md5h shah (Except.error ()) gEnabled gURL remote dflt c h).cache
        = pruneHash mt now c
  ∧ (getAvatar mt now md5h shah (Except.error ()) gEnabled gURL remote dflt c h).remoteRequests
        = []
  ∧ ∀ h', ¬ staleEntry mt now (hsGet c h') →
      hsGet (getAvatar mt now md5h shah (Except.error ()) gEnabled gURL remote dflt c h).cache h'
        = hsGet c h' := by
  have hg := getAvatar_miss_error mt now md5h shah gEnabled gURL remote dflt c h hmiss
  rw [hg]
  refine ⟨rfl, rfl, rfl, ?_⟩
  intro h' hns
  rw [hsGet_pruneHash mt now c h' hwf, if_neg hns]

/-- Witness for the amended C1 on a concrete cache with a stale entry. -/
theorem directoryFailure_aborts_pass_witness :
    (keys [(("f"), (⟨[1], 0⟩ : Avatar))]).Nodup
  ∧ ((hsGet [(("f"), (⟨[1], 0⟩ : Avatar))] ("f")).image.length = 0
      ∨ (1800 : Int) < 10000 - (hsGet [(("f"), (⟨[1], 0⟩ : Avatar))] ("f")).lastUpdate)
  ∧ ((getAvatar 1800 10000 (fun s => "md5" ++ s) (fun s => "sha" ++ s)
        (Except.error ()) false ("g") (Except.error ()) [5]
        [(("f"), ⟨[1], 0⟩)] ("f")).result = Except.error ()
    ∧ (getAvatar 1800 10000 (fun s => "md5" ++ s) (fun s => "sha" ++ s)
        (Except.error ()) false ("g") (Except.error ()) [5]
        [(("f"), ⟨[1], 0⟩)] ("f")).cache = pruneHash 1800 10000 [(("f"), ⟨[1], 0⟩)]
    ∧ (getAvatar 1800 10000 (fun s => "md5" ++ s) (fun s => "sha" ++ s)
        (Except.error ()) false ("g") (Except.error ()) [5]
        [(("f"), ⟨[1], 0⟩)] ("f")).remoteRequests = []
    ∧ ∀ h', ¬ staleEntry 1800 10000 (hsGet [(("f"), ⟨[1], 0⟩)] h') →
        hsGet (getAvatar 1800 10000 (fun s => "md5" ++ s) (fun s => "sha" ++ s)
          (Except.error ()) false ("g") (Except.error ()) [5]
          [(("f"), ⟨[1], 0⟩)] ("f")).cache h' = hsGet [(("f"), ⟨[1], 0⟩)] h') :=
  ⟨by decide, by decide,
    directoryFailure_aborts_pass 1800 10000 (fun s => "md5" ++ s) (fun s => "sha" ++ s)
      false ("g") (Except.error ()) [5] [(("f"), ⟨[1], 0⟩)] ("f") (by decide) (by decide)⟩

/-- Counterexample to claim C2 as stated: the directory returns one record
with identity m and image bytes [7]; the cache already holds a fresh
non-empty entry under the md5 fingerprint of m and nothing under its sha256
fingerprint, and the requested fingerprint is the sha256 one, so the call runs
a refresh pass.  Were every returned record folded under every fingerprint
algorithm with lastRefresh equal to now, both entries would equal the record
image with timestamp 10000 afterwards; instead the fresh md5 entry makes
fillHash skip the record entirely, the sha256 entry is never written, and the
requested fingerprint falls through to the default image. -/
theorem refresh_fold_counterexample :
    hsGet (getAvatar 1800 10000 (fun s => "md5" ++ s) (fun s => "sha" ++ s)
        (Except.ok [⟨"m", [7]⟩]) false ("g") (Except.error ()) [0]
        [(("md5m"), ⟨[9], 10000⟩)] ("sham")).cache ("sham") ≠ ⟨[7], 10000⟩
  ∧ hsGet (getAvatar 1800 10000 (fun s => "md5" ++ s) (fun s => "sha" ++ s)
        (Except.ok [⟨"m", [7]⟩]) false ("g") (Except.error ()) [0]
        [(("md5m"), ⟨[9], 10000⟩)] ("sham")).cache ("md5m") ≠ ⟨[7], 10000⟩ :=
  ⟨by decide, by decide⟩

/-- Claim C2 amended: on a miss or stale read the pipeline does run the sweep
and then the full directory fetch, and serves the re-read entry when the fold
produced one; but a returned record is folded conditionally, not
unconditionally: when the entry under its md5 fingerprint is non-empty and
fresh the record is skipped entirely, with not even the sha256 fingerprint
considered; otherwise the record is written under the md5 fingerprint with
lastRefresh equal to now, and then under the sha256 fingerprint only when that
entry is not non-empty and fresh.  Fresh non-empty cache entries are never
overwritten by a refresh pass. -/
theorem refresh_fold_policy (mt now : Int) (md5h shah : String → String)
    (entries : List LdapEntry) (gEnabled : Bool) (gURL : String)
    (remote : Except Unit HttpResp) (dflt : List Nat) (c : Cache) (h : String)
    (e : LdapEntry) (c' : Cache)
    (hmiss : (hsGet c h).image.length = 0 ∨ mt < now - (hsGet c h).lastUpdate)
    (hfound : 0 < (hsGet (fillHash md5h shah mt now entries (pruneHash mt now c)) h).image.length)
    (hmail : ¬ e.mail = "") (hav : ¬ e.av = [])
    (hne : md5h e.mail ≠ shah e.mail) :
    (getAvatar mt now md5h shah (Except.ok entries) gEnabled gURL remote dflt c h).cache
        = fillHash md5h shah mt now entries (pruneHash mt now c)
  ∧ (getAvatar mt now md5h shah (Except.ok entries) gEnabled gURL remote dflt c h).didFetch
        = true
  ∧ (freshNonEmpty mt now (hsGet c' (md5h e.mail)) →
      fillHashEntry md5h shah mt now e c' = c')
  ∧ (¬ freshNonEmpty mt now (hsGet c' (md5h e.mail)) →
      hsGet (fillHashEntry md5h shah mt now e c') (md5h e.mail) = ⟨e.av, now⟩
    ∧ (freshNonEmpty mt now (hsGet c' (shah e.mail)) →
        hsGet (fillHashEntry md5h shah mt now e c') (shah e.mail)
          = hsGet c' (shah e.mail))
    ∧ (¬ freshNonEmpty mt now (hsGet c' (shah e.mail)) →
        hsGet (fillHashEntry md5h shah mt now e c') (shah e.mail) = ⟨e.av, now⟩)) := by
  have hg := getAvatar_miss_ok mt now md5h shah entries gEnabled gURL remote dflt c h hmiss
  rw [if_pos hfound] at hg
  have hsha : hsGet (hsWrite c' (md5h e.mail) ⟨e.av, now⟩) (shah e.mail)
      = hsGet c' (shah e.mail) :=
    hsGet_hsWrite_ne c' (md5h e.mail) (shah e.mail) ⟨e.av, now⟩ (fun hx => hne hx.symm)
  refine ⟨by rw [hg], by rw [hg], ?_, ?_⟩
  · intro hf
    unfold fillHashEntry
    rw [if_neg hmail, if_neg hav, if_pos hf]
  · intro hnf
    unfold fillHashEntry
    rw [if_neg hmail, if_neg hav, if_neg hnf]
    by_cases hf2 : freshNonEmpty mt now (hsGet c' (shah e.mail))
    · rw [if_pos (hsha ▸ hf2)]
      exact ⟨hsGet_hsWrite_self _ _ _, fun _ => hsha, fun hnc => absurd hf2 hnc⟩
    · rw [if_neg (fun hx => hf2 (hsha ▸ hx))]
      refine ⟨?_, fun hc2 => absurd hc2 hf2, fun _ => hsGet_hsWrite_self _ _ _⟩
      rw [hsGet_hsWrite_ne _ (shah e.mail) (md5h e.mail) ⟨e.av, now⟩ hne]
      exact hsGet_hsWrite_self _ _ _

/-- Witness for the amended C2: a miss on an empty cache where the directory
record is folded and found on re-read, together with the fold policy applied
to that record over the empty cache. -/
theorem refresh_fold_policy_witness :
    ((hsGet ([] : Cache) ("md5m")).image.length = 0
      ∨ (1800 : Int) < 10000 - (hsGet ([] : Cache) ("md5m")).lastUpdate)
  ∧ 0 < (hsGet (fillHash (fun s => "md5" ++ s) (fun s => "sha" ++ s) 1800 10000
        [⟨"m", [7]⟩] (pruneHash 1800 10000 [])) ("md5m")).image.length
  ∧ ¬ (⟨"m", [7]⟩ : LdapEntry).mail = ""
  ∧ ¬ (⟨"m", [7]⟩ : LdapEntry).av = []
  ∧ (fun s => "md5" ++ s) (⟨"m", [7]⟩ : LdapEntry).mail
      ≠ (fun s => "sha" ++ s) (⟨"m", [7]⟩ : LdapEntry).mail
  ∧ ((getAvatar 1800 10000 (fun s => "md5" ++ s) (fun s => "sha" ++ s)
        (Except.ok [⟨"m", [7]⟩]) false ("g") (Except.error ()) [0] [] ("md5m")).cache
        = fillHash (fun s => "md5" ++ s) (fun s => "sha" ++ s) 1800 10000
            [⟨"m", [7]⟩] (pruneHash 1800 10000 [])
    ∧ (getAvatar 1800 10000 (fun s => "md5" ++ s) (fun s => "sha" ++ s)
        (Except.ok [⟨"m", [7]⟩]) false ("g") (Except.error ()) [0] [] ("md5m")).didFetch
        = true
    ∧ (freshNonEmpty 1800 10000 (hsGet ([] : Cache)
          ((fun s => "md5" ++ s) (⟨"m", [7]⟩ : LdapEntry).mail)) →
        fillHashEntry (fun s => "md5" ++ s) (fun s => "sha" ++ s) 1800 10000
          ⟨"m", [7]⟩ [] = [])
    ∧ (¬ freshNonEmpty 1800 10000 (hsGet ([] : Cache)
          ((fun s => "md5" ++ s) (⟨"m", [7]⟩ : LdapEntry).mail)) →
        hsGet (fillHashEntry (fun s => "md5" ++ s) (fun s => "sha" ++ s) 1800 10000
            ⟨"m", [7]⟩ []) ((fun s => "md5" ++ s) (⟨"m", [7]⟩ : LdapEntry).mail)
          = ⟨(⟨"m", [7]⟩ : LdapEntry).av, 10000⟩
      ∧ (freshNonEmpty 1800 10000 (hsGet ([] : Cache)
            ((fun s => "sha" ++ s) (⟨"m", [7]⟩ : LdapEntry).mail)) →
          hsGet (fillHashEntry (fun s => "md5" ++ s) (fun s => "sha" ++ s) 1800 10000
              ⟨"m", [7]⟩ []) ((fun s => "sha" ++ s) (⟨"m", [7]⟩ : LdapEntry).mail)
            = hsGet ([] : Cache) ((fun s => "sha" ++ s) (⟨"m", [7]⟩ : LdapEntry).mail))
      ∧ (¬ freshNonEmpty 1800 10000 (hsGet ([] : Cache)
            ((fun s => "sha" ++ s) (⟨"m", [7]⟩ : LdapEntry).mail)) →
          hsGet (fillHashEntry (fun s => "md5" ++ s) (fun s => "sha" ++ s) 1800 10000
              ⟨"m", [7]⟩ []) ((fun s => "sha" ++ s) (⟨"m", [7]⟩ : LdapEntry).mail)
            = ⟨(⟨"m", [7]⟩ : LdapEntry).av, 10000⟩))) :=
  ⟨by decide, by decide, by decide, by decide, by decide,
    refresh_fold_policy 1800 10000 (fun s => "md5" ++ s) (fun s => "sha" ++ s)
      [⟨"m", [7]⟩] false ("g") (Except.error ()) [0] [] ("md5m") ⟨"m", [7]⟩ []
      (by decide) (by decide) (by decide) (by decide) (by decide)⟩

/-- Counterexample to claim C6 as stated: for a detected format outside jpeg
and png, encodeAvatar produces empty output together with a nil error, so no
EncodeError is signalled and the transform does not fail. -/
theorem encode_unknown_format_counterexample :
    encodeAvatar (fun _ : Nat => ([1], some ())) (fun _ => ([2], some ())) 0 ("gif")
        = ([], none)
  ∧ (encodeAvatar (fun _ : Nat => ([1], some ())) (fun _ => ([2], some ())) 0 ("gif")).2
        ≠ some () :=
  ⟨rfl, fun hcontra => Option.noConfusion hcontra⟩

/-- Claim C6 amended: the encode step re-encodes to the format detected on
decode by dispatching on it, and exactly two output formats are supported,
jpeg and png; for any other detected format the switch has no branch, so the
step returns empty output with a nil error: it silently yields empty bytes
rather than failing with an EncodeError. -/
theorem encode_format_dispatch {Img : Type} (jpegEnc pngEnc : Img → List Nat × Option Unit)
    (img : Img) (format : String)
    (hj : format ≠ "jpeg") (hp : format ≠ "png") :
    encodeAvatar jpegEnc pngEnc img format = ([], none)
  ∧ encodeAvatar jpegEnc pngEnc img ("jpeg") = jpegEnc img
  ∧ encodeAvatar jpegEnc pngEnc img ("png") = pngEnc img := by
  refine ⟨?_, rfl, rfl⟩
  unfold encodeAvatar
  rw [if_neg hj, if_neg hp]

/-- Witness for the amended C6 at the concrete unknown format gif. -/
theorem encode_format_dispatch_witness :
    ("gif" : String) ≠ "jpeg"
  ∧ ("gif" : String) ≠ "png"
  ∧ (encodeAvatar (fun _ : Nat => ([1], some ())) (fun _ => ([2], some ())) 0 ("gif")
        = ([], none)
    ∧ encodeAvatar (fun _ : Nat => ([1], some ())) (fun _ => ([2], some ())) 0 ("jpeg")
        = (fun _ : Nat => ([1], some ())) 0
    ∧ encodeAvatar (fun _ : Nat => ([1], some ())) (fun _ => ([2], some ())) 0 ("png")
        = (fun _ : Nat => ([2], some ())) 0) :=
  ⟨by decide, by decide,
    encode_format_dispatch (fun _ : Nat => ([1], some ())) (fun _ => ([2], some ()))
      0 ("gif") (by decide) (by decide)⟩

/-- Claim C10: in the request handler size parsing, the s query parameter
takes precedence over size when both are present, with the first s value used
and size ignored; when the selected value is absent or is not a valid decimal
unsigned 64-bit integer, the resize width is the default 80. -/
theorem size_param_precedence (q : List (String × String)) (v : String) :
    (queryFirst q ("s") = some v → avatarSize q = (parseUint64 v).getD 80)
  ∧ (queryFirst q ("s") = none → queryFirst q ("size") = some v →
      avatarSize q = (parseUint64 v).getD 80)
  ∧ (queryFirst q ("s") = none → queryFirst q ("size") = none → avatarSize q = 80)
  ∧ (queryFirst q ("s") = some v → parseUint64 v = none → avatarSize q = 80) := by
  refine ⟨?_, ?_, ?_, ?_⟩
  · intro h1
    unfold avatarSize
    rw [h1]
    show (match parseUint64 v with | some n => n | none => 80) = (parseUint64 v).getD 80
    cases parseUint64 v with
    | some n => rfl
    | none => rfl
  · intro h1 h2
    unfold avatarSize
    rw [h1, h2]
    show (match parseUint64 v with | some n => n | none => 80) = (parseUint64 v).getD 80
    cases parseUint64 v with
    | some n => rfl
    | none => rfl
  · intro h1 h2
    unfold avatarSize
    rw [h1, h2]
    rfl
  · intro h1 hp
    unfold avatarSize
    rw [h1]
    show (match parseUint64 v with | some n => n | none => 80) = 80
    rw [hp]

/-- Witness for C10: both parameters present, the s value non-numeric, so the
size parameter is ignored and the default width 80 is used. -/
theorem size_param_precedence_witness :
    queryFirst [(("s"), ("ab")), (("size"), ("29"))] ("s") = some ("ab")
  ∧ parseUint64 ("ab") = none
  ∧ avatarSize [(("s"), ("ab")), (("size"), ("29"))] = 80 :=
  ⟨by decide, by decide,
    (size_param_precedence [(("s"), ("ab")), (("size"), ("29"))] ("ab")).2.2.2
      (by decide) (by decide)⟩

end Avatarad
